import Mathlib

/-!
Verification of the FST fantasy-football backend's transfer and scoring
engine.  The definitions below are a shallow embedding of the final server
revision (the file with the `transfer-player`, `save-team`,
`activate-wild-bench` and `update-points` endpoints, 75€ budget), together
with the earlier `make-transfer` and `save-team` revisions where a claim
refers to them.  Player data fetched from the external provider is
modelled as a total catalog function: one request = one lookup, the
provider answers.  The HTTP parameter-presence checks and the database
user lookup are outside the embedding: a request is a state plus
arguments.
-/

namespace FST

/-- A provider player record as consumed by the server: `now_cost` is the
raw provider cost, an integer number of tenths of a unit, `club` is the
provider's `team` field (club id), `element_type` the position code 1..4,
`gwPoints` the latest-gameweek `total_points` from the element-summary
history.  All money below (costs, budgets, the 75.0 ceiling) is carried
in these fixed-point tenths, so the source's `now_cost / 10` conversion
to pounds is the identity on units and 75.0 reads as 750. -/
structure PlayerRec where
  now_cost : Int
  club : Nat
  element_type : Nat
  gwPoints : Int
deriving DecidableEq

/-- The external Player Data Provider, answering every id. -/
abbrev Catalog := Nat → PlayerRec

/-- The cost expression used throughout the final revision:
`parseFloat(response.data.now_cost / 10) || 5.0` — a zero (falsy) value
falls back to 5.0, which is 50 tenths. -/
def costOf (cat : Catalog) (id : Nat) : Int :=
  let v := (cat id).now_cost
  if v = 0 then 50 else v

/-- The user document fields of the final revision's schema that the
transfer/scoring engine reads or writes. -/
structure UserState where
  team : List Nat
  wildBenchPlayer : Option Nat
  points : Int
  totalPoints : Int
  entries : Nat
  locked : Bool
  currentGameweek : Nat
  budget : Int
  freeTransfers : Int
  lastTransferGameweek : Nat
  wildcardUsed : Bool
  wildcardGameweek : Option Nat
  tripleCaptainUsed : Bool
  tripleCaptainGameweek : Option Nat
  captainId : Option Nat
  wildBenchUsed : Bool
  wildBenchGameweek : Option Nat
deriving DecidableEq

/-- `user.wildcardUsed && user.wildcardGameweek === user.currentGameweek`. -/
def isWildcardActive (s : UserState) : Bool :=
  s.wildcardUsed && s.wildcardGameweek == some s.currentGameweek

/-- `user.tripleCaptainUsed && user.tripleCaptainGameweek === user.currentGameweek`. -/
def isTripleCaptainActive (s : UserState) : Bool :=
  s.tripleCaptainUsed && s.tripleCaptainGameweek == some s.currentGameweek

/-- `user.wildBenchUsed && user.wildBenchGameweek === user.currentGameweek`. -/
def isWildBenchActive (s : UserState) : Bool :=
  s.wildBenchUsed && s.wildBenchGameweek == some s.currentGameweek

/-- The rollover block of `transfer-player`:
`if (user.currentGameweek !== user.lastTransferGameweek) { user.freeTransfers = 1; user.lastTransferGameweek = user.currentGameweek; }`. -/
def rolloverIfNeeded (s : UserState) : UserState :=
  if s.currentGameweek ≠ s.lastTransferGameweek then
    { s with freeTransfers := 1, lastTransferGameweek := s.currentGameweek }
  else s

/-- JS `Array.prototype.indexOf`: the index of the first occurrence, with
`none` standing for the sentinel -1. -/
def jsIndexOf (l : List Nat) (x : Nat) : Option Nat :=
  match l with
  | [] => none
  | a :: rest => if a = x then some 0 else (jsIndexOf rest x).map (· + 1)

/-- The `teamCounts` loop of the final revision (`save-team` and
`transfer-player`): walk the roster, incrementing a per-club counter, and
flag a violation as soon as some club's count exceeds 2. -/
def checkClubCaps (cat : Catalog) : List Nat → (Nat → Nat) → Bool
  | [], _ => false
  | p :: rest, counts =>
    let c := (cat p).club
    let n := counts c + 1
    if 2 < n then true
    else checkClubCaps cat rest (fun x => if x = c then n else counts x)

/-- Number of roster members belonging to a given club. -/
def clubCount (cat : Catalog) (team : List Nat) (club : Nat) : Nat :=
  team.countP (fun p => (cat p).club == club)

inductive SaveError
  | sizeError
  | duplicateError
  | clubCapError
  | budgetError (total : Int)
  | alreadyLocked
deriving DecidableEq

/-- The final revision's `save-team` endpoint: 11 ids, no duplicates, at
most 2 per club (checked during the cost loop), total cost at most 75.0
(750 tenths); on success the roster is locked in with
`budget = 75.0 - totalCost`, `points = 0` and `entries` incremented. -/
def saveTeam (cat : Catalog) (s : UserState) (team : List Nat) :
    Except SaveError UserState :=
  if team.length ≠ 11 then .error .sizeError
  else if ¬ team.Nodup then .error .duplicateError
  else
    let totalCost := (team.map (costOf cat)).sum
    if checkClubCaps cat team (fun _ => 0) then .error .clubCapError
    else if 750 < totalCost then .error (.budgetError totalCost)
    else if s.locked then .error .alreadyLocked
    else .ok { s with team := team, locked := true, entries := s.entries + 1,
                      points := 0, budget := 750 - totalCost }

/-- The `save-team` endpoint of the plain `server.js` revision: ceiling
100.0 (1000 tenths) and no per-club cap check at all. -/
def saveTeamLegacy (cat : Catalog) (s : UserState) (team : List Nat) :
    Except SaveError UserState :=
  if team.length ≠ 11 then .error .sizeError
  else if ¬ team.Nodup then .error .duplicateError
  else
    let totalCost := (team.map (costOf cat)).sum
    if 1000 < totalCost then .error (.budgetError totalCost)
    else if s.locked then .error .alreadyLocked
    else .ok { s with team := team, locked := true, entries := s.entries + 1,
                      points := 0, budget := 1000 - totalCost }

inductive TransferError
  | notLocked
  | teamNotComplete
  | playerNotInTeam
  | budgetError (shortfall : Int)
  | clubCapError
deriving DecidableEq

/-- The card block of `transfer-player`: with the wildcard active the
free-transfer count is pinned to 1; otherwise, with no free transfer
left, a -4 point penalty (floored at 0) is applied. -/
def transferStage2 (s1 : UserState) : UserState :=
  if isWildcardActive s1 then { s1 with freeTransfers := 1 }
  else if s1.freeTransfers < 1 then { s1 with points := max 0 (s1.points - 4) }
  else s1

/-- The mutation block of `transfer-player`: write the swapped roster and
the new budget, then decrement the free-transfer count when the wildcard
is inactive and a free transfer remains. -/
def transferFinish (s2 : UserState) (newTeam : List Nat) (newBudget : Int)
    (wc : Bool) : UserState :=
  let s3 := { s2 with team := newTeam, budget := newBudget }
  if wc = false ∧ 0 < s3.freeTransfers then
    { s3 with freeTransfers := s3.freeTransfers - 1 }
  else s3

/-- The final revision's `transfer-player` endpoint.  Guard order follows
the source: locked, team complete, outgoing membership, budget, then the
gameweek rollover (persisted immediately), the wildcard/penalty block,
the club-cap scan over the swapped roster, and finally the mutation.  The
error also carries the state as persisted by the failing request: the
budget check precedes the rollover, the club-cap check follows it. -/
def transferPlayer (cat : Catalog) (s : UserState) (oldId newId : Nat) :
    Except (TransferError × UserState) UserState :=
  if s.locked = false then .error (.notLocked, s)
  else if s.team.length ≠ 11 then .error (.teamNotComplete, s)
  else
    match jsIndexOf s.team oldId with
    | none => .error (.playerNotInTeam, s)
    | some idx =>
      let newBudget := s.budget - (costOf cat newId - costOf cat oldId)
      if newBudget < 0 then .error (.budgetError (-newBudget), s)
      else
        let s1 := rolloverIfNeeded s
        let s2 := transferStage2 s1
        let newTeam := s.team.set idx newId
        if checkClubCaps cat newTeam (fun _ => 0) then .error (.clubCapError, s1)
        else .ok (transferFinish s2 newTeam newBudget (isWildcardActive s1))

/-- A sequence of transfer requests, all of which must succeed. -/
def applySuccessfulTransfers (cat : Catalog) :
    UserState → List (Nat × Nat) → Option UserState
  | s, [] => some s
  | s, (o, n) :: rest =>
    match transferPlayer cat s o n with
    | .ok s' => applySuccessfulTransfers cat s' rest
    | .error _ => none

inductive UpdateError
  | teamNotComplete
deriving DecidableEq

/-- The scored player set of `update-points`: the starting 11 plus the
wild-bench player while the wild-bench card is active. -/
def scoredPlayers (s : UserState) : List Nat :=
  s.team ++
    (if isWildBenchActive s then
      match s.wildBenchPlayer with
      | some p => [p]
      | none => []
    else [])

/-- Per-player gameweek points in `update-points`: the latest gameweek
total, tripled for the designated captain while the triple-captain card
is active. -/
def playerGwPoints (cat : Catalog) (s : UserState) (id : Nat) : Int :=
  let pts := (cat id).gwPoints
  if isTripleCaptainActive s && s.captainId == some id then 3 * pts else pts

/-- The accumulation loop of `update-points`. -/
def computePoints (cat : Catalog) (s : UserState) : Int :=
  (scoredPlayers s).foldl (fun acc id => acc + playerGwPoints cat s id) 0

/-- The final revision's `update-points` endpoint: recompute the gameweek
sum and write it into BOTH `points` and `totalPoints`. -/
def updatePoints (cat : Catalog) (s : UserState) : Except UpdateError UserState :=
  if s.team.length ≠ 11 then .error .teamNotComplete
  else
    let total := computePoints cat s
    .ok { s with points := total, totalPoints := total }

inductive WildBenchError
  | alreadyUsed
  | notLocked
  | alreadyInTeam
  | clubCapError
deriving DecidableEq

/-- The final revision's `activate-wild-bench` endpoint: guards in source
order, then the per-club count of the roster plus the wild-bench player,
checked for the wild-bench player's club against the cap of 2. -/
def activateWildBench (cat : Catalog) (s : UserState) (extraId : Nat) :
    Except WildBenchError UserState :=
  if s.wildBenchUsed then .error .alreadyUsed
  else if s.locked = false then .error .notLocked
  else if extraId ∈ s.team then .error .alreadyInTeam
  else
    let wbClub := (cat extraId).club
    if 2 < clubCount cat s.team wbClub + 1 then .error .clubCapError
    else .ok { s with wildBenchPlayer := some extraId, wildBenchUsed := true,
                      wildBenchGameweek := some s.currentGameweek }

/-- A cached catalog entry of the `make-transfer` revision's `/players`
projection: id, club, position code, and the displayed cost
(`(now_cost/10).toFixed(1)`, re-parsed with `parseFloat`). -/
structure CatalogPlayer where
  id : Nat
  club : Nat
  element_type : Nat
  now_cost : Int
deriving DecidableEq

/-- The user document fields of the `make-transfer` revision's schema. -/
structure UserStateV1 where
  team : List Nat
  points : Int
  totalPoints : Int
  locked : Bool
  currentGameweek : Nat
  budget : Int
  transfersRemaining : Int
  wildcardUsed : Bool
deriving DecidableEq

inductive MakeTransferError
  | notLocked
  | noTransfersRemaining
  | invalidPlayerIds
  | positionMismatch (outPos inPos : Nat)
  | budgetError (shortfall : Int)
  | outgoingNotInTeam
deriving DecidableEq

/-- Modelled from the spec: the Player Catalog Cache.  The `make-transfer`
revision reads an `allPlayers` list that the repository sources never
define; per the spec it is the cached provider catalog, looked up by id
(`allPlayers.find(p => p.id === playerId)`). -/
def findPlayer (allPlayers : List CatalogPlayer) (id : Nat) : Option CatalogPlayer :=
  allPlayers.find? (fun p => p.id == id)

/-- The `make-transfer` endpoint of the transfer-system revision: locked
guard, transfers-remaining guard (waived once the wildcard has been
used), catalog lookups, position-compatibility check, budget check
(`newBudget = budget + outgoingCost - incomingCost`), then the swap with
the transfer counter decremented and floored at 0. -/
def makeTransfer (allPlayers : List CatalogPlayer) (s : UserStateV1)
    (outgoingId incomingId : Nat) : Except MakeTransferError UserStateV1 :=
  if s.locked = false then .error .notLocked
  else if s.transfersRemaining ≤ 0 ∧ s.wildcardUsed = false then
    .error .noTransfersRemaining
  else
    match findPlayer allPlayers outgoingId, findPlayer allPlayers incomingId with
    | some outP, some inP =>
      if outP.element_type ≠ inP.element_type then
        .error (.positionMismatch outP.element_type inP.element_type)
      else
        let newBudget := s.budget + outP.now_cost - inP.now_cost
        if newBudget < 0 then .error (.budgetError (-newBudget))
        else
          match jsIndexOf s.team outgoingId with
          | none => .error .outgoingNotInTeam
          | some idx =>
            .ok { s with team := s.team.set idx incomingId,
                         budget := newBudget,
                         transfersRemaining :=
                           if 0 < s.transfersRemaining then
                             s.transfersRemaining - 1
                           else 0 }
    | _, _ => .error .invalidPlayerIds

/-- Whether a request succeeded. -/
def isOkE {ε α : Type} : Except ε α → Bool
  | .ok _ => true
  | .error _ => false

/-- Demonstration catalog for witnesses: ids 1..11 span clubs 1..6 with
at most two ids per club; id 12 belongs to club 6 (already holding one),
id 13 to club 1 (already holding two).  All costs are 5.0 (50 tenths)
except id 13 (6.0) and id 14 (30.0). -/
def demoCat : Catalog := fun id =>
  if id = 13 then { now_cost := 60, club := 1, element_type := 4, gwPoints := 2 }
  else if id = 14 then { now_cost := 300, club := 7, element_type := 4, gwPoints := 9 }
  else if id = 12 then { now_cost := 50, club := 6, element_type := 4, gwPoints := 7 }
  else { now_cost := 50, club := (id - 1) / 2 + 1, element_type := if id = 1 then 1 else 3, gwPoints := Int.ofNat id }

/-- Demonstration state used by witnesses: a locked 11-player roster. -/
def demoState : UserState where
  team := [1, 2, 3, 4, 5, 6, 7, 8, 9, 10, 11]
  wildBenchPlayer := none
  points := 10
  totalPoints := 10
  entries := 1
  locked := true
  currentGameweek := 2
  budget := 200
  freeTransfers := 1
  lastTransferGameweek := 2
  wildcardUsed := false
  wildcardGameweek := none
  tripleCaptainUsed := false
  tripleCaptainGameweek := none
  captainId := none
  wildBenchUsed := false
  wildBenchGameweek := none

/-- Catalog for the C4 witness: ids 1..10 cost 5.0 each and id 11 costs
25.0, so the 11-player roster costs exactly the 75.0 ceiling; clubs hold
at most two of the ids. -/
def cat75 : Catalog := fun id =>
  if id = 11 then { now_cost := 250, club := 7, element_type := 3, gwPoints := 0 }
  else { now_cost := 50, club := (id - 1) / 2 + 1, element_type := 3, gwPoints := 0 }

/-- Catalog for the C4 counterexample: ids 1, 2 and 3 all belong to club
1; every id costs 5.0. -/
def catBad : Catalog := fun id =>
  { now_cost := 50, club := if id ≤ 3 then 1 else id, element_type := 3, gwPoints := 0 }

/-- Catalog cache and state for the `make-transfer` revision witnesses:
players 1 (a goalkeeper) and 2 (a midfielder). -/
def demoPlayers : List CatalogPlayer :=
  [{ id := 1, club := 1, element_type := 1, now_cost := 50 },
   { id := 2, club := 2, element_type := 3, now_cost := 50 }]

/-- A locked user state of the `make-transfer` revision. -/
def demoStateV1 : UserStateV1 where
  team := [1, 3, 4, 5, 6, 7, 8, 9, 10, 11, 12]
  points := 0
  totalPoints := 0
  locked := true
  currentGameweek := 1
  budget := 100
  transfersRemaining := 1
  wildcardUsed := false

theorem jsIndexOf_some {l : List Nat} {x : Nat} {i : Nat}
    (h : jsIndexOf l x = some i) : i < l.length ∧ l.get? i = some x := by
  induction l generalizing i with
  | nil => simp [jsIndexOf] at h
  | cons a rest ih =>
    by_cases hax : a = x
    · simp [jsIndexOf, hax] at h
      subst h
      simp [hax]
    · rw [jsIndexOf, if_neg hax] at h
      rcases Option.map_eq_some'.mp h with ⟨j, hj, hji⟩
      rcases ih hj with ⟨hlt, hget⟩
      subst hji
      constructor
      · simpa using Nat.succ_lt_succ hlt
      · simpa using hget

theorem clubCount_cons (cat : Catalog) (a : Nat) (l : List Nat) (club : Nat) :
    clubCount cat (a :: l) club =
      clubCount cat l club + (if (cat a).club = club then 1 else 0) := by
  by_cases h : (cat a).club = club
  · simp [clubCount, List.countP_cons, h]
  · simp [clubCount, List.countP_cons, h]

theorem clubCount_pos {cat : Catalog} {l : List Nat} {club : Nat}
    (h : 0 < clubCount cat l club) : ∃ p ∈ l, (cat p).club = club := by
  rcases List.countP_pos_iff.mp h with ⟨p, hp, hc⟩
  exact ⟨p, hp, by simpa using hc⟩

/-- If the incremental club-cap scan reports no violation, then for every
roster member the initial count of its club plus its club's total in the
roster stays within the cap. -/
theorem checkClubCaps_false (cat : Catalog) :
    ∀ (l : List Nat) (counts : Nat → Nat),
      checkClubCaps cat l counts = false →
      ∀ p ∈ l, counts ((cat p).club) + clubCount cat l ((cat p).club) ≤ 2 := by
  intro l
  induction l with
  | nil => intro counts _ p hp; simp at hp
  | cons a rest ih =>
    intro counts h p hp
    rw [checkClubCaps] at h
    by_cases hcap : 2 < counts ((cat a).club) + 1
    · rw [if_pos hcap] at h
      exact absurd h (by simp)
    · rw [if_neg hcap] at h
      have hn : counts ((cat a).club) + 1 ≤ 2 := Nat.le_of_not_lt hcap
      have ihh := ih _ h
      rcases List.mem_cons.mp hp with hpa | hpr
      · subst hpa
        rw [clubCount_cons, if_pos rfl]
        by_cases hz : clubCount cat rest ((cat p).club) = 0
        · omega
        · rcases clubCount_pos (Nat.pos_of_ne_zero hz) with ⟨q, hq, hqc⟩
          have h2 := ihh q hq
          rw [hqc] at h2
          simp at h2
          omega
      · have h2 := ihh p hpr
        rw [clubCount_cons]
        by_cases hpc : (cat p).club = (cat a).club
        · rw [hpc] at h2 ⊢
          rw [if_pos rfl]
          simp at h2
          omega
        · have hac : ¬ (cat a).club = (cat p).club := fun hh => hpc hh.symm
          rw [if_neg hac]
          simp [hpc] at h2
          omega

theorem transferStage2_team (s1 : UserState) : (transferStage2 s1).team = s1.team := by
  unfold transferStage2
  split
  · rfl
  · split <;> rfl

theorem transferStage2_budget (s1 : UserState) :
    (transferStage2 s1).budget = s1.budget := by
  unfold transferStage2
  split
  · rfl
  · split <;> rfl

theorem transferStage2_wildcard (s1 : UserState) :
    (transferStage2 s1).wildcardUsed = s1.wildcardUsed ∧
    (transferStage2 s1).wildcardGameweek = s1.wildcardGameweek ∧
    (transferStage2 s1).currentGameweek = s1.currentGameweek ∧
    (transferStage2 s1).lastTransferGameweek = s1.lastTransferGameweek := by
  unfold transferStage2
  split
  · exact ⟨rfl, rfl, rfl, rfl⟩
  · split
    · exact ⟨rfl, rfl, rfl, rfl⟩
    · exact ⟨rfl, rfl, rfl, rfl⟩

theorem transferStage2_ft_wc {s1 : UserState} (h : isWildcardActive s1 = true) :
    (transferStage2 s1).freeTransfers = 1 := by
  simp [transferStage2, h]

theorem transferStage2_ft_nowc {s1 : UserState} (h : isWildcardActive s1 = false) :
    (transferStage2 s1).freeTransfers = s1.freeTransfers := by
  by_cases h2 : s1.freeTransfers < 1 <;> simp [transferStage2, h, h2]

theorem transferStage2_points_penalty {s1 : UserState}
    (h : isWildcardActive s1 = false) (h2 : s1.freeTransfers < 1) :
    (transferStage2 s1).points = max 0 (s1.points - 4) := by
  simp [transferStage2, h, h2]

theorem transferFinish_team (s2 : UserState) (newTeam : List Nat)
    (newBudget : Int) (wc : Bool) :
    (transferFinish s2 newTeam newBudget wc).team = newTeam := by
  by_cases h : wc = false ∧ 0 < s2.freeTransfers <;> simp [transferFinish, h]

theorem transferFinish_budget (s2 : UserState) (newTeam : List Nat)
    (newBudget : Int) (wc : Bool) :
    (transferFinish s2 newTeam newBudget wc).budget = newBudget := by
  by_cases h : wc = false ∧ 0 < s2.freeTransfers <;> simp [transferFinish, h]

theorem transferFinish_points (s2 : UserState) (newTeam : List Nat)
    (newBudget : Int) (wc : Bool) :
    (transferFinish s2 newTeam newBudget wc).points = s2.points := by
  by_cases h : wc = false ∧ 0 < s2.freeTransfers <;> simp [transferFinish, h]

theorem transferFinish_wildcard (s2 : UserState) (newTeam : List Nat)
    (newBudget : Int) (wc : Bool) :
    (transferFinish s2 newTeam newBudget wc).wildcardUsed = s2.wildcardUsed ∧
    (transferFinish s2 newTeam newBudget wc).wildcardGameweek = s2.wildcardGameweek ∧
    (transferFinish s2 newTeam newBudget wc).currentGameweek = s2.currentGameweek ∧
    (transferFinish s2 newTeam newBudget wc).lastTransferGameweek = s2.lastTransferGameweek := by
  by_cases h : wc = false ∧ 0 < s2.freeTransfers <;> simp [transferFinish, h]

theorem transferFinish_ft_wc (s2 : UserState) (newTeam : List Nat)
    (newBudget : Int) :
    (transferFinish s2 newTeam newBudget true).freeTransfers = s2.freeTransfers := by
  simp [transferFinish]

theorem transferFinish_ft_nowc (s2 : UserState) (newTeam : List Nat)
    (newBudget : Int) :
    (transferFinish s2 newTeam newBudget false).freeTransfers =
      (if 0 < s2.freeTransfers then s2.freeTransfers - 1 else s2.freeTransfers) := by
  by_cases h : 0 < s2.freeTransfers <;> simp [transferFinish, h]

/-- Inversion of a successful `transfer-player` request: every guard must
have passed and the result is the staged mutation of the input state. -/
theorem transferPlayer_ok_elim {cat : Catalog} {s : UserState} {oldId newId : Nat}
    {s' : UserState} (h : transferPlayer cat s oldId newId = .ok s') :
    ∃ idx, jsIndexOf s.team oldId = some idx ∧
      s.locked = true ∧ s.team.length = 11 ∧
      ¬ s.budget - (costOf cat newId - costOf cat oldId) < 0 ∧
      checkClubCaps cat (s.team.set idx newId) (fun _ => 0) = false ∧
      s' = transferFinish (transferStage2 (rolloverIfNeeded s))
             (s.team.set idx newId)
             (s.budget - (costOf cat newId - costOf cat oldId))
             (isWildcardActive (rolloverIfNeeded s)) := by
  rw [transferPlayer] at h
  by_cases h1 : s.locked = false
  · rw [if_pos h1] at h
    simp at h
  rw [if_neg h1] at h
  by_cases h2 : s.team.length ≠ 11
  · rw [if_pos h2] at h
    simp at h
  rw [if_neg h2] at h
  cases hidx : jsIndexOf s.team oldId with
  | none =>
    rw [hidx] at h
    simp at h
  | some idx =>
    rw [hidx] at h
    simp only at h
    by_cases h3 : s.budget - (costOf cat newId - costOf cat oldId) < 0
    · rw [if_pos h3] at h
      simp at h
    rw [if_neg h3] at h
    by_cases h4 : checkClubCaps cat (s.team.set idx newId) (fun _ => 0) = true
    · simp only [h4, if_true] at h
      simp at h
    · have h4f : checkClubCaps cat (s.team.set idx newId) (fun _ => 0) = false := by
        simpa using h4
      simp only [h4f, Bool.false_eq_true, if_false] at h
      refine ⟨idx, rfl, ?_, ?_, h3, h4f, ?_⟩
      · simpa using h1
      · simpa using h2
      · exact (Except.ok.injEq _ _).mp h |>.symm

/-- Construction of a successful `transfer-player` request from its
guards. -/
theorem transferPlayer_ok_build {cat : Catalog} {s : UserState} {oldId newId : Nat}
    {idx : Nat}
    (hl : s.locked = true) (hlen : s.team.length = 11)
    (hidx : jsIndexOf s.team oldId = some idx)
    (hb : ¬ s.budget - (costOf cat newId - costOf cat oldId) < 0)
    (hcap : checkClubCaps cat (s.team.set idx newId) (fun _ => 0) = false) :
    transferPlayer cat s oldId newId =
      .ok (transferFinish (transferStage2 (rolloverIfNeeded s))
            (s.team.set idx newId)
            (s.budget - (costOf cat newId - costOf cat oldId))
            (isWildcardActive (rolloverIfNeeded s))) := by
  rw [transferPlayer, hl, hidx]
  rw [if_neg (by simp)]
  rw [if_neg (by simp [hlen])]
  simp only
  rw [if_neg hb, if_neg (by simp [hcap])]

theorem rolloverIfNeeded_fields (s : UserState) :
    (rolloverIfNeeded s).team = s.team ∧
    (rolloverIfNeeded s).budget = s.budget ∧
    (rolloverIfNeeded s).points = s.points ∧
    (rolloverIfNeeded s).wildcardUsed = s.wildcardUsed ∧
    (rolloverIfNeeded s).wildcardGameweek = s.wildcardGameweek ∧
    (rolloverIfNeeded s).currentGameweek = s.currentGameweek := by
  unfold rolloverIfNeeded
  by_cases h : s.currentGameweek ≠ s.lastTransferGameweek <;> simp [h]

theorem isWildcardActive_rollover (s : UserState) :
    isWildcardActive (rolloverIfNeeded s) = isWildcardActive s := by
  unfold isWildcardActive
  rw [(rolloverIfNeeded_fields s).2.2.2.1, (rolloverIfNeeded_fields s).2.2.2.2.1,
    (rolloverIfNeeded_fields s).2.2.2.2.2]

theorem rolloverIfNeeded_ft (s : UserState) :
    (rolloverIfNeeded s).freeTransfers = 1 ∨
    (rolloverIfNeeded s).freeTransfers = s.freeTransfers := by
  unfold rolloverIfNeeded
  by_cases h : s.currentGameweek ≠ s.lastTransferGameweek <;> simp [h]

/-- C1: the budget rule of `transfer-player`.  On success the new budget
is the old budget plus the outgoing player's cost minus the incoming
player's cost, and it is nonnegative; when that quantity would be
negative the request fails with a budget error carrying the shortfall and
the persisted state is the unchanged input state. -/
theorem transfer_budget_rule (cat : Catalog) (s : UserState) (oldId newId : Nat) :
    (∀ s', transferPlayer cat s oldId newId = .ok s' →
      s'.budget = s.budget + costOf cat oldId - costOf cat newId ∧ 0 ≤ s'.budget) ∧
    (s.locked = true → s.team.length = 11 →
      (jsIndexOf s.team oldId).isSome = true →
      s.budget + costOf cat oldId - costOf cat newId < 0 →
      transferPlayer cat s oldId newId =
        .error (.budgetError (costOf cat newId - costOf cat oldId - s.budget), s)) := by
  have hbudget : s.budget - (costOf cat newId - costOf cat oldId) =
      s.budget + costOf cat oldId - costOf cat newId := by ring
  constructor
  · intro s' h
    rcases transferPlayer_ok_elim h with ⟨idx, _, _, _, hb, _, hs'⟩
    rw [hs', transferFinish_budget, hbudget]
    rw [hbudget] at hb
    exact ⟨rfl, le_of_not_lt hb⟩
  · intro hl hlen hsome hneg
    rcases Option.isSome_iff_exists.mp hsome with ⟨idx, hidx⟩
    rw [transferPlayer, hl, hidx]
    rw [if_neg (by simp)]
    rw [if_neg (by simp [hlen])]
    simp only
    rw [if_pos (by rw [hbudget]; exact hneg)]
    have : -(s.budget - (costOf cat newId - costOf cat oldId)) =
        costOf cat newId - costOf cat oldId - s.budget := by ring
    rw [this]

/-- Witness for C1: with a 20.0 budget, swapping a 5.0 player for a 30.0
player fails with a 5.0 shortfall, while swapping for another 5.0 player
succeeds and leaves the budget unchanged at 20.0 ≥ 0 (in tenths). -/
theorem transfer_budget_rule_witness :
    (demoState.budget + costOf demoCat 1 - costOf demoCat 14 < 0 ∧
      transferPlayer demoCat demoState 1 14 =
        .error (.budgetError (costOf demoCat 14 - costOf demoCat 1 - demoState.budget),
          demoState)) ∧
    ({ demoState with
        team := [12, 2, 3, 4, 5, 6, 7, 8, 9, 10, 11],
        freeTransfers := 0 } : UserState).budget =
      demoState.budget + costOf demoCat 1 - costOf demoCat 12 ∧
    (0 : Int) ≤ ({ demoState with
        team := [12, 2, 3, 4, 5, 6, 7, 8, 9, 10, 11],
        freeTransfers := 0 } : UserState).budget :=
  ⟨⟨by decide,
    (transfer_budget_rule demoCat demoState 1 14).2 (by decide) (by decide)
      (by decide) (by decide)⟩,
   (transfer_budget_rule demoCat demoState 1 12).1
     { demoState with
       team := [12, 2, 3, 4, 5, 6, 7, 8, 9, 10, 11],
       freeTransfers := 0 } (by rfl)⟩

/-- C8: on every successful transfer the incoming id is written into
exactly the roster slot previously occupied by the outgoing id
(order-preserving), every other slot is unchanged, and the roster keeps
its length. -/
theorem transfer_slot_frame (cat : Catalog) (s : UserState) (oldId newId : Nat)
    (s' : UserState) (h : transferPlayer cat s oldId newId = .ok s') :
    ∃ idx, jsIndexOf s.team oldId = some idx ∧ idx < s.team.length ∧
      s.team.get? idx = some oldId ∧
      s'.team.get? idx = some newId ∧
      (∀ j, j ≠ idx → s'.team.get? j = s.team.get? j) ∧
      s'.team.length = s.team.length := by
  rcases transferPlayer_ok_elim h with ⟨idx, hidx, _, _, _, _, hs'⟩
  rcases jsIndexOf_some hidx with ⟨hlt, hget⟩
  have hteam : s'.team = s.team.set idx newId := by
    rw [hs', transferFinish_team]
  refine ⟨idx, hidx, hlt, hget, ?_, ?_, ?_⟩
  · rw [hteam]
    exact List.get?_set_eq_of_lt newId hlt
  · intro j hj
    rw [hteam]
    exact List.get?_set_ne newId s.team (Ne.symm hj)
  · rw [hteam, List.length_set]

/-- Witness for C8: swapping player 1 for player 12 writes 12 into slot 0
and leaves slots 1..10 unchanged. -/
theorem transfer_slot_frame_witness :
    ∃ idx, jsIndexOf demoState.team 1 = some idx ∧ idx < demoState.team.length ∧
      demoState.team.get? idx = some 1 ∧
      ({ demoState with
          team := [12, 2, 3, 4, 5, 6, 7, 8, 9, 10, 11],
          freeTransfers := 0 } : UserState).team.get? idx = some 12 ∧
      (∀ j, j ≠ idx →
        ({ demoState with
            team := [12, 2, 3, 4, 5, 6, 7, 8, 9, 10, 11],
            freeTransfers := 0 } : UserState).team.get? j = demoState.team.get? j) ∧
      ({ demoState with
          team := [12, 2, 3, 4, 5, 6, 7, 8, 9, 10, 11],
          freeTransfers := 0 } : UserState).team.length = demoState.team.length :=
  transfer_slot_frame demoCat demoState 1 12
    { demoState with
      team := [12, 2, 3, 4, 5, 6, 7, 8, 9, 10, 11],
      freeTransfers := 0 } (by rfl)

/-- C2 counterexample: in the final `transfer-player` revision, a request
with freeTransfers = 0 and the wildcard inactive does NOT fail — it
succeeds (the endpoint takes the -4 penalty path instead of rejecting). -/
theorem transfer_no_free_counterexample :
    isWildcardActive { demoState with freeTransfers := 0 } = false ∧
    ({ demoState with freeTransfers := 0 } : UserState).freeTransfers = 0 ∧
    isOkE (transferPlayer demoCat { demoState with freeTransfers := 0 } 1 12) = true :=
  ⟨rfl, rfl, rfl⟩

/-- C2 amended: in the final `transfer-player` revision, a request with no
free transfer left and the wildcard inactive (and no rollover pending)
succeeds with a 4-point penalty floored at zero: the roster slot and the
budget are updated as usual, `points` becomes `max 0 (points - 4)`, and
`freeTransfers` stays where it was (no decrement at or below zero).  The
`make-transfer` revisions instead reject such a request. -/
theorem transfer_no_free_penalty (cat : Catalog) (s : UserState)
    (oldId newId : Nat) (idx : Nat)
    (hwc : isWildcardActive s = false)
    (hft : s.freeTransfers < 1)
    (hgw : s.currentGameweek = s.lastTransferGameweek)
    (hl : s.locked = true) (hlen : s.team.length = 11)
    (hidx : jsIndexOf s.team oldId = some idx)
    (hb : ¬ s.budget - (costOf cat newId - costOf cat oldId) < 0)
    (hcap : checkClubCaps cat (s.team.set idx newId) (fun _ => 0) = false) :
    transferPlayer cat s oldId newId =
      .ok { s with team := s.team.set idx newId,
                   budget := s.budget - (costOf cat newId - costOf cat oldId),
                   points := max 0 (s.points - 4) } := by
  rw [transferPlayer_ok_build hl hlen hidx hb hcap]
  have hro : rolloverIfNeeded s = s := by
    simp [rolloverIfNeeded, hgw]
  rw [hro]
  have h2 : transferStage2 s = { s with points := max 0 (s.points - 4) } := by
    simp [transferStage2, hwc, hft]
  rw [h2, hwc]
  rw [transferFinish]
  rw [if_neg (by simp; omega)]

/-- Witness for the C2 amended theorem: freeTransfers = 0, wildcard
inactive, points 10 → the transfer goes through and points drop to 6. -/
theorem transfer_no_free_penalty_witness :
    transferPlayer demoCat { demoState with freeTransfers := 0 } 1 12 =
      .ok { { demoState with freeTransfers := 0 } with
            team := ({ demoState with freeTransfers := 0 } : UserState).team.set 0 12,
            budget := ({ demoState with freeTransfers := 0 } : UserState).budget -
              (costOf demoCat 12 - costOf demoCat 1),
            points := max 0 (({ demoState with freeTransfers := 0 } : UserState).points - 4) } :=
  transfer_no_free_penalty demoCat { demoState with freeTransfers := 0 } 1 12 0
    (by rfl) (by decide) (by rfl) (by rfl) (by rfl) (by rfl) (by decide) (by rfl)

/-- One successful transfer under an active wildcard: the free-transfer
count comes out pinned at 1 (never decremented), the wildcard stays
active, and the new budget is nonnegative. -/
theorem transfer_wildcard_step {cat : Catalog} {s : UserState}
    {oldId newId : Nat} {s' : UserState}
    (hwc : isWildcardActive s = true)
    (h : transferPlayer cat s oldId newId = .ok s') :
    s'.freeTransfers = 1 ∧ isWildcardActive s' = true ∧ 0 ≤ s'.budget := by
  rcases transferPlayer_ok_elim h with ⟨idx, _, _, _, hb, _, hs'⟩
  have hwc1 : isWildcardActive (rolloverIfNeeded s) = true := by
    rw [isWildcardActive_rollover]
    exact hwc
  rw [hwc1] at hs'
  have hfw := transferFinish_wildcard (transferStage2 (rolloverIfNeeded s))
    (s.team.set idx newId) (s.budget - (costOf cat newId - costOf cat oldId)) true
  have hsw := transferStage2_wildcard (rolloverIfNeeded s)
  have hrw := rolloverIfNeeded_fields s
  refine ⟨?_, ?_, ?_⟩
  · rw [hs', transferFinish_ft_wc, transferStage2_ft_wc hwc1]
  · rw [isWildcardActive] at hwc ⊢
    rw [hs', hfw.1, hsw.1, hrw.2.2.2.1, hfw.2.1, hsw.2.1, hrw.2.2.2.2.1,
      hfw.2.2.1, hsw.2.2.1, hrw.2.2.2.2.2]
    exact hwc
  · rw [hs', transferFinish_budget]
    omega

/-- C3: while the wildcard is active, any run of successive successful
transfers never diminishes the free-transfer count (starting from the
reachable values ≤ 1), a nonempty run leaves it at exactly 1, and the
budget rule stays enforced: the final budget is nonnegative. -/
theorem wildcard_never_decrements (cat : Catalog) (s : UserState)
    (l : List (Nat × Nat)) (s' : UserState)
    (hwc : isWildcardActive s = true)
    (hft : s.freeTransfers ≤ 1)
    (h : applySuccessfulTransfers cat s l = some s') :
    s.freeTransfers ≤ s'.freeTransfers ∧
    (l ≠ [] → s'.freeTransfers = 1 ∧ 0 ≤ s'.budget) := by
  induction l generalizing s with
  | nil =>
    rw [applySuccessfulTransfers] at h
    have hss : s = s' := by simpa using h
    subst hss
    exact ⟨le_refl _, by simp⟩
  | cons p rest ih =>
    obtain ⟨o, n⟩ := p
    simp only [applySuccessfulTransfers] at h
    cases htr : transferPlayer cat s o n with
    | error e =>
      rw [htr] at h
      simp at h
    | ok s1 =>
      rw [htr] at h
      rcases transfer_wildcard_step hwc htr with ⟨hft1, hwc1, hbud1⟩
      rcases ih s1 hwc1 (by omega) h with ⟨hle, hrest⟩
      constructor
      · omega
      · intro _
        cases hr : rest with
        | nil =>
          rw [hr] at h
          simp only [applySuccessfulTransfers] at h
          have hss : s1 = s' := by simpa using h
          subst hss
          exact ⟨hft1, hbud1⟩
        | cons q t =>
          exact hrest (by simp [hr])

/-- Witness for C3: with the wildcard active, swapping 1 → 12 and back
12 → 1 succeeds twice and leaves freeTransfers at 1 with a nonnegative
budget. -/
theorem wildcard_never_decrements_witness :
    ({ demoState with
        wildcardUsed := true,
        wildcardGameweek := some 2 } : UserState).freeTransfers ≤
      ({ demoState with
          wildcardUsed := true,
          wildcardGameweek := some 2 } : UserState).freeTransfers ∧
    (([((1 : Nat), (12 : Nat)), (12, 1)] : List (Nat × Nat)) ≠ [] →
      ({ demoState with
          wildcardUsed := true,
          wildcardGameweek := some 2 } : UserState).freeTransfers = 1 ∧
      (0 : Int) ≤ ({ demoState with
          wildcardUsed := true,
          wildcardGameweek := some 2 } : UserState).budget) :=
  wildcard_never_decrements demoCat
    { demoState with wildcardUsed := true, wildcardGameweek := some 2 }
    [(1, 12), (12, 1)]
    { demoState with wildcardUsed := true, wildcardGameweek := some 2 }
    (by rfl) (by decide) (by rfl)

/-- C4 counterexample: the `server.js` revision's `save-team` accepts a
roster holding three players of club 1, so not every accepted roster
respects the 2-per-club cap. -/
theorem save_team_validator_counterexample :
    isOkE (saveTeamLegacy catBad { demoState with locked := false }
      [1, 2, 3, 4, 5, 6, 7, 8, 9, 10, 11]) = true ∧
    2 < clubCount catBad [1, 2, 3, 4, 5, 6, 7, 8, 9, 10, 11] 1 :=
  ⟨rfl, by decide⟩

/-- C4 amended: every roster accepted by the final revision's `save-team`
has exactly 11 distinct ids, at most 2 per club, and total cost at most
the 75.0 ceiling, and the remaining budget is set to ceiling minus total
cost; the `server.js` revision's `save-team` guarantees the same except
the per-club cap, against its 100.0 ceiling. -/
theorem save_team_validator :
    (∀ (cat : Catalog) (s : UserState) (team : List Nat) (s' : UserState),
      saveTeam cat s team = .ok s' →
      team.length = 11 ∧ team.Nodup ∧
      (∀ club, clubCount cat team club ≤ 2) ∧
      (team.map (costOf cat)).sum ≤ 750 ∧
      s'.team = team ∧ s'.budget = 750 - (team.map (costOf cat)).sum ∧
      s'.locked = true) ∧
    (∀ (cat : Catalog) (s : UserState) (team : List Nat) (s' : UserState),
      saveTeamLegacy cat s team = .ok s' →
      team.length = 11 ∧ team.Nodup ∧
      (team.map (costOf cat)).sum ≤ 1000 ∧
      s'.team = team ∧ s'.budget = 1000 - (team.map (costOf cat)).sum ∧
      s'.locked = true) := by
  constructor
  · intro cat s team s' h
    rw [saveTeam] at h
    by_cases h1 : team.length ≠ 11
    · rw [if_pos h1] at h
      simp at h
    rw [if_neg h1] at h
    by_cases h2 : ¬ team.Nodup
    · rw [if_pos h2] at h
      simp at h
    rw [if_neg h2] at h
    simp only at h
    by_cases h3 : checkClubCaps cat team (fun _ => 0) = true
    · simp only [h3, if_true] at h
      simp at h
    have h3f : checkClubCaps cat team (fun _ => 0) = false := by
      simpa using h3
    simp only [h3f, Bool.false_eq_true, if_false] at h
    by_cases h4 : 750 < (team.map (costOf cat)).sum
    · rw [if_pos h4] at h
      simp at h
    rw [if_neg h4] at h
    by_cases h5 : s.locked = true
    · simp only [h5, if_true] at h
      simp at h
    have h5f : s.locked = false := by
      simpa using h5
    simp only [h5f, Bool.false_eq_true, if_false] at h
    have hs' : s' = { s with
        team := team,
        locked := true,
        entries := s.entries + 1,
        points := 0,
        budget := 750 - (team.map (costOf cat)).sum } :=
      ((Except.ok.injEq _ _).mp h).symm
    refine ⟨not_not.mp (by simpa using h1), not_not.mp h2, ?_,
      le_of_not_lt h4, by rw [hs'], by rw [hs'], by rw [hs']⟩
    intro club
    by_cases hz : clubCount cat team club = 0
    · omega
    · rcases clubCount_pos (Nat.pos_of_ne_zero hz) with ⟨p, hp, hpc⟩
      have hb := checkClubCaps_false cat team _ h3f p hp
      rw [hpc] at hb
      simpa using hb
  · intro cat s team s' h
    rw [saveTeamLegacy] at h
    by_cases h1 : team.length ≠ 11
    · rw [if_pos h1] at h
      simp at h
    rw [if_neg h1] at h
    by_cases h2 : ¬ team.Nodup
    · rw [if_pos h2] at h
      simp at h
    rw [if_neg h2] at h
    simp only at h
    by_cases h4 : 1000 < (team.map (costOf cat)).sum
    · rw [if_pos h4] at h
      simp at h
    rw [if_neg h4] at h
    by_cases h5 : s.locked = true
    · simp only [h5, if_true] at h
      simp at h
    have h5f : s.locked = false := by
      simpa using h5
    simp only [h5f, Bool.false_eq_true, if_false] at h
    have hs' : s' = { s with
        team := team,
        locked := true,
        entries := s.entries + 1,
        points := 0,
        budget := 1000 - (team.map (costOf cat)).sum } :=
      ((Except.ok.injEq _ _).mp h).symm
    exact ⟨not_not.mp (by simpa using h1), not_not.mp h2, le_of_not_lt h4,
      by rw [hs'], by rw [hs'], by rw [hs']⟩

/-- Witness for C4: a roster costing exactly the 75.0 ceiling is accepted
by the final revision's `save-team` and the remaining budget comes out 0. -/
theorem save_team_validator_witness :
    ([1, 2, 3, 4, 5, 6, 7, 8, 9, 10, 11] : List Nat).length = 11 ∧
    ([1, 2, 3, 4, 5, 6, 7, 8, 9, 10, 11] : List Nat).Nodup ∧
    (∀ club, clubCount cat75 [1, 2, 3, 4, 5, 6, 7, 8, 9, 10, 11] club ≤ 2) ∧
    (([1, 2, 3, 4, 5, 6, 7, 8, 9, 10, 11] : List Nat).map (costOf cat75)).sum ≤ 750 ∧
    ({ demoState with entries := 2, points := 0, budget := 0 } : UserState).team =
      [1, 2, 3, 4, 5, 6, 7, 8, 9, 10, 11] ∧
    ({ demoState with entries := 2, points := 0, budget := 0 } : UserState).budget =
      750 - (([1, 2, 3, 4, 5, 6, 7, 8, 9, 10, 11] : List Nat).map (costOf cat75)).sum ∧
    ({ demoState with entries := 2, points := 0, budget := 0 } : UserState).locked = true :=
  save_team_validator.1 cat75 { demoState with locked := false }
    [1, 2, 3, 4, 5, 6, 7, 8, 9, 10, 11]
    { demoState with entries := 2, points := 0, budget := 0 } (by rfl)

/-- C7: Gameweek rollover resets freeTransfers to 1 and records the
gameweek exactly when the gameweek changed, and running the rollover
check a second time within the same gameweek leaves the state identical
to the state after the first run (idempotence). -/
theorem rollover_exactly_once_idempotent (s : UserState) :
    (s.currentGameweek ≠ s.lastTransferGameweek →
      (rolloverIfNeeded s).freeTransfers = 1 ∧
      (rolloverIfNeeded s).lastTransferGameweek = s.currentGameweek) ∧
    rolloverIfNeeded (rolloverIfNeeded s) = rolloverIfNeeded s := by
  constructor
  · intro h
    simp [rolloverIfNeeded, h]
  · by_cases h : s.currentGameweek ≠ s.lastTransferGameweek
    · simp [rolloverIfNeeded, h]
    · simp [rolloverIfNeeded, h]

/-- Witness for C7 at a concrete state whose gameweek has advanced. -/
theorem rollover_exactly_once_idempotent_witness :
    ({ demoState with currentGameweek := 3 }.currentGameweek ≠
        { demoState with currentGameweek := 3 }.lastTransferGameweek →
      (rolloverIfNeeded { demoState with currentGameweek := 3 }).freeTransfers = 1 ∧
      (rolloverIfNeeded { demoState with currentGameweek := 3 }).lastTransferGameweek =
        { demoState with currentGameweek := 3 }.currentGameweek) ∧
    rolloverIfNeeded (rolloverIfNeeded { demoState with currentGameweek := 3 }) =
      rolloverIfNeeded { demoState with currentGameweek := 3 } :=
  rollover_exactly_once_idempotent { demoState with currentGameweek := 3 }

theorem foldl_add_eq_sum (f : Nat → Int) (l : List Nat) :
    l.foldl (fun acc id => acc + f id) 0 = (l.map f).sum := by
  suffices h : ∀ a : Int, l.foldl (fun acc id => acc + f id) a = a + (l.map f).sum by
    simpa using h 0
  induction l with
  | nil =>
    intro a
    simp
  | cons x t ih =>
    intro a
    rw [List.foldl_cons, ih]
    simp
    ring

theorem sum_map_triple (f : Nat → Int) (c : Nat) (l : List Nat) :
    (l.map (fun id => if c = id then 3 * f id else f id)).sum
      = (l.map f).sum + 2 * (l.count c : Int) * f c := by
  induction l with
  | nil => simp
  | cons a t ih =>
    by_cases hac : a = c
    · subst hac
      simp only [List.map_cons, List.sum_cons, ih, List.count_cons, if_pos rfl]
      simp
      ring
    · have hca : ¬ c = a := fun hh => hac hh.symm
      simp only [List.map_cons, List.sum_cons, ih, List.count_cons, if_neg hca]
      simp [hac]
      ring

/-- C5: with the triple captain active, `update-points` scores the total
as the accumulated sum over the scored player set, where exactly the
designated captain's gameweek points are tripled and every other player's
points are unscaled; when the captain appears once, the total is the
plain sum plus twice the captain's raw points. -/
theorem triple_captain_scoring (cat : Catalog) (s : UserState) (c : Nat)
    (htc : isTripleCaptainActive s = true)
    (hcap : s.captainId = some c)
    (hcount : (scoredPlayers s).count c = 1) :
    computePoints cat s = ((scoredPlayers s).map (playerGwPoints cat s)).sum ∧
    playerGwPoints cat s c = 3 * (cat c).gwPoints ∧
    (∀ id, id ≠ c → playerGwPoints cat s id = (cat id).gwPoints) ∧
    computePoints cat s =
      ((scoredPlayers s).map (fun id => (cat id).gwPoints)).sum +
        2 * (cat c).gwPoints := by
  have hpg : ∀ id, playerGwPoints cat s id =
      if c = id then 3 * (cat id).gwPoints else (cat id).gwPoints := by
    intro id
    rw [playerGwPoints, htc, hcap]
    by_cases hd : c = id
    · subst hd
      simp
    · simp [hd]
  have hfold : computePoints cat s =
      ((scoredPlayers s).map (playerGwPoints cat s)).sum := by
    rw [computePoints]
    exact foldl_add_eq_sum _ _
  refine ⟨hfold, ?_, ?_, ?_⟩
  · rw [hpg c, if_pos rfl]
  · intro id hid
    rw [hpg id, if_neg (fun hh => hid hh.symm)]
  · have hmap : (scoredPlayers s).map (playerGwPoints cat s) =
        (scoredPlayers s).map
          (fun id => if c = id then 3 * (cat id).gwPoints else (cat id).gwPoints) := by
      exact List.map_congr_left (fun id _ => hpg id)
    rw [hfold, hmap, sum_map_triple (fun id => (cat id).gwPoints) c, hcount]
    push_cast
    ring

/-- Witness for C5: triple captain on player 3 (3 raw points this
gameweek) turns a plain 66-point team total into 72. -/
theorem triple_captain_scoring_witness :
    computePoints demoCat
        { demoState with
          tripleCaptainUsed := true,
          tripleCaptainGameweek := some 2,
          captainId := some 3 } =
      ((scoredPlayers { demoState with
          tripleCaptainUsed := true,
          tripleCaptainGameweek := some 2,
          captainId := some 3 }).map
        (playerGwPoints demoCat { demoState with
          tripleCaptainUsed := true,
          tripleCaptainGameweek := some 2,
          captainId := some 3 })).sum ∧
    playerGwPoints demoCat { demoState with
        tripleCaptainUsed := true,
        tripleCaptainGameweek := some 2,
        captainId := some 3 } 3 = 3 * (demoCat 3).gwPoints ∧
    (∀ id, id ≠ 3 → playerGwPoints demoCat { demoState with
        tripleCaptainUsed := true,
        tripleCaptainGameweek := some 2,
        captainId := some 3 } id = (demoCat id).gwPoints) ∧
    computePoints demoCat { demoState with
        tripleCaptainUsed := true,
        tripleCaptainGameweek := some 2,
        captainId := some 3 } =
      ((scoredPlayers { demoState with
          tripleCaptainUsed := true,
          tripleCaptainGameweek := some 2,
          captainId := some 3 }).map
        (fun id => (demoCat id).gwPoints)).sum + 2 * (demoCat 3).gwPoints :=
  triple_captain_scoring demoCat
    { demoState with
      tripleCaptainUsed := true,
      tripleCaptainGameweek := some 2,
      captainId := some 3 } 3 (by rfl) (by rfl) (by decide)

theorem clubCount_append_self (cat : Catalog) (l : List Nat) (e : Nat) :
    clubCount cat (l ++ [e]) ((cat e).club) =
      clubCount cat l ((cat e).club) + 1 := by
  simp [clubCount, List.countP_append]

/-- C6: for a locked state with the wild-bench card unused, activating
wild bench with an extra player whose club already holds two roster
players fails with the club-cap error: the check counts the joint
12-player set (roster plus extra player) against the cap of 2. -/
theorem wild_bench_club_cap (cat : Catalog) (s : UserState) (extraId : Nat)
    (hl : s.locked = true) (hu : s.wildBenchUsed = false)
    (hmem : extraId ∉ s.team)
    (hcap : 2 < clubCount cat (s.team ++ [extraId]) ((cat extraId).club)) :
    activateWildBench cat s extraId = .error .clubCapError := by
  rw [clubCount_append_self] at hcap
  rw [activateWildBench, hu, hl]
  rw [if_neg (by simp)]
  rw [if_neg (by simp)]
  rw [if_neg hmem]
  simp only
  rw [if_pos hcap]

/-- Witness for C6: the roster already holds players 1 and 2 of club 1,
and wild-bench player 13 is also of club 1 — rejected. -/
theorem wild_bench_club_cap_witness :
    demoState.locked = true ∧ demoState.wildBenchUsed = false ∧
    (13 : Nat) ∉ demoState.team ∧
    2 < clubCount demoCat (demoState.team ++ [13]) ((demoCat 13).club) ∧
    activateWildBench demoCat demoState 13 = .error .clubCapError :=
  ⟨rfl, rfl, by decide, by decide,
    wild_bench_club_cap demoCat demoState 13 (by rfl) (by rfl) (by decide) (by decide)⟩

/-- C9 counterexample: the final `transfer-player` revision never checks
positions — a transfer replacing a goalkeeper (element_type 1) by a
forward (element_type 4) succeeds. -/
theorem position_mismatch_counterexample :
    (demoCat 1).element_type ≠ (demoCat 12).element_type ∧
    isOkE (transferPlayer demoCat demoState 1 12) = true :=
  ⟨by decide, rfl⟩

/-- C9 amended: only the `make-transfer` revision enforces position
compatibility: when the catalog's positions of the outgoing and incoming
players differ, the request fails with the position-mismatch error (and
hence no state is written); the final `transfer-player` revision performs
no position check at all. -/
theorem make_transfer_position_mismatch (allPlayers : List CatalogPlayer)
    (s : UserStateV1) (outgoingId incomingId : Nat) (outP inP : CatalogPlayer)
    (hl : s.locked = true)
    (ht : ¬ (s.transfersRemaining ≤ 0 ∧ s.wildcardUsed = false))
    (hout : findPlayer allPlayers outgoingId = some outP)
    (hin : findPlayer allPlayers incomingId = some inP)
    (hpos : outP.element_type ≠ inP.element_type) :
    makeTransfer allPlayers s outgoingId incomingId =
      .error (.positionMismatch outP.element_type inP.element_type) := by
  rw [makeTransfer, hl]
  rw [if_neg (by simp)]
  rw [if_neg ht]
  rw [hout, hin]
  simp only
  rw [if_pos hpos]

/-- Witness for the C9 amended theorem: replacing goalkeeper 1 by
midfielder 2 is rejected with a position mismatch. -/
theorem make_transfer_position_mismatch_witness :
    makeTransfer demoPlayers demoStateV1 1 2 =
      .error (.positionMismatch
        ({ id := 1, club := 1, element_type := 1, now_cost := 50 } : CatalogPlayer).element_type
        ({ id := 2, club := 2, element_type := 3, now_cost := 50 } : CatalogPlayer).element_type) :=
  make_transfer_position_mismatch demoPlayers demoStateV1 1 2
    { id := 1, club := 1, element_type := 1, now_cost := 50 }
    { id := 2, club := 2, element_type := 3, now_cost := 50 }
    (by rfl) (by decide) (by rfl) (by rfl) (by decide)

/-- C10: a successful `update-points` writes the freshly computed
gameweek sum into both `points` and `totalPoints` (so they coincide), and
the result does not depend on the previously stored `points` or
`totalPoints` — any earlier -4 transfer penalty or accumulated season
total is overwritten. -/
theorem update_points_overwrites (cat : Catalog) (s : UserState) (s' : UserState)
    (h : updatePoints cat s = .ok s') :
    s'.totalPoints = s'.points ∧
    s'.points = computePoints cat s ∧
    (∀ p t : Int, updatePoints cat { s with points := p, totalPoints := t } = .ok s') := by
  rw [updatePoints] at h
  by_cases h1 : s.team.length ≠ 11
  · rw [if_pos h1] at h
    simp at h
  rw [if_neg h1] at h
  simp only at h
  have hs' : s' = { s with
      points := computePoints cat s,
      totalPoints := computePoints cat s } :=
    ((Except.ok.injEq _ _).mp h).symm
  refine ⟨by rw [hs'], by rw [hs'], ?_⟩
  intro p t
  rw [hs']
  rw [updatePoints]
  rw [if_neg h1]
  rfl

/-- Witness for C10: on the demo state the gameweek sum is 66; starting
from a penalized `points = -3` and an accumulated `totalPoints = 99`,
`update-points` still writes 66 into both fields. -/
theorem update_points_overwrites_witness :
    ({ demoState with points := 66, totalPoints := 66 } : UserState).totalPoints =
      ({ demoState with points := 66, totalPoints := 66 } : UserState).points ∧
    updatePoints demoCat { demoState with points := -3, totalPoints := 99 } =
      .ok { demoState with points := 66, totalPoints := 66 } :=
  ⟨(update_points_overwrites demoCat demoState
      { demoState with points := 66, totalPoints := 66 } (by rfl)).1,
   (update_points_overwrites demoCat demoState
      { demoState with points := 66, totalPoints := 66 } (by rfl)).2.2 (-3) 99⟩

end FST
